import Mathlib

/-!
Shallow embedding of `src/main.py`, the Lutha News Tracker FastAPI server.

The server fetches articles and trends from the newsapi.ai provider,
normalizes the loosely-typed JSON payload into `NewsArticle` / `Trend`
records and serves them over HTTP.  We model:

* JSON values (`Json`) and the Python dictionary/iteration/membership
  primitives the code uses, with their exception behavior made explicit
  through `Except PyError`;
* `datetime.fromisoformat` (Python 3.11 semantics on the extended
  ISO-8601 format `YYYY-MM-DD[THH[:MM[:SS[.ffffff]]]][Z|+HH:MM|-HH:MM]`,
  in particular the literal `Z` suffix accepted since 3.11);
* the pydantic model construction (lax-mode field validation collapsed
  to a single `validationError`);
* the payload construction, the article loop of `scrape_real_news`, the
  `/news` and `/trends` endpoints.

Exceptions the Python code does not catch propagate as `Except.error`;
FastAPI turns them into an HTTP 500, modelled in the endpoint functions.
-/

/-- A JSON value, as produced by `response.json()`.  Python's `None` and
JSON `null` coincide, so `Json.null` also stands for absent values
returned by `dict.get`. -/
inductive Json where
  | null : Json
  | bool (b : Bool) : Json
  | num (q : ℚ) : Json
  | str (s : String) : Json
  | arr (xs : List Json) : Json
  | obj (fields : List (String × Json)) : Json

/-- The Python exceptions relevant to `main.py`: `AttributeError` (method
call on a value of the wrong type), `TypeError` (e.g. `in` on a
non-container, `fromisoformat` on a non-string) and pydantic's
`ValidationError`.  Only `requests.exceptions.RequestException` is ever
caught by the code, and none of these three is one. -/
inductive PyError where
  | attributeError : PyError
  | typeError : PyError
  | validationError : PyError
deriving DecidableEq, Repr

/-- First-match lookup in an association list; models Python `dict`
lookup (keys of a dict literal are unique, so first match is the match). -/
def lookupField : List (String × Json) → String → Option Json
  | [], _ => none
  | (k, v) :: rest, key => if k = key then some v else lookupField rest key

/-- Python truthiness of a JSON value (`if x:`). -/
def Json.truthy : Json → Bool
  | .null => false
  | .bool b => b
  | .num q => q ≠ 0
  | .str s => s ≠ ""
  | .arr xs => !xs.isEmpty
  | .obj fs => !fs.isEmpty

/-- `x.get(k)` — `AttributeError` unless `x` is a dict; `None` when the
key is absent. -/
def pyGet (j : Json) (k : String) : Except PyError Json :=
  match j with
  | .obj fs => .ok ((lookupField fs k).getD .null)
  | _ => .error .attributeError

/-- `x.get(k, d)` — `AttributeError` unless `x` is a dict. -/
def pyGetD (j : Json) (k : String) (d : Json) : Except PyError Json :=
  match j with
  | .obj fs => .ok ((lookupField fs k).getD d)
  | _ => .error .attributeError

/-- `pat` starts the list `s`. -/
def startsCL : List Char → List Char → Bool
  | [], _ => true
  | _ :: _, [] => false
  | p :: ps, c :: cs => p = c && startsCL ps cs

/-- `pat` occurs as a contiguous sublist of `s` (Python's `in` on
strings; the empty pattern always occurs). -/
def subCL (pat : List Char) : List Char → Bool
  | [] => startsCL pat []
  | c :: cs => startsCL pat (c :: cs) || subCL pat cs

/-- Python `v == x` for a string `v` and a JSON value `x`: true exactly
on the equal string. -/
def strEqJson (v : String) : Json → Bool
  | .str s => s = v
  | _ => false

/-- Python `v in xs` for a string `v` and a list `xs`. -/
def strMem (v : String) (xs : List Json) : Bool := xs.any (strEqJson v)

/-- Python `v in c` for a string `v`: membership for lists (equality
only holds against equal strings), substring test for strings, key
membership for dicts, `TypeError` otherwise. -/
def pyIn (v : String) (c : Json) : Except PyError Bool :=
  match c with
  | .arr xs => .ok (strMem v xs)
  | .str s => .ok (subCL v.data s.data)
  | .obj fs => .ok (fs.any fun kv => kv.1 = v)
  | _ => .error .typeError

/-- Python iteration (`for x in c`): lists yield elements, strings yield
one-character strings, dicts yield their keys; other values raise
`TypeError`. -/
def pyIter : Json → Except PyError (List Json)
  | .arr xs => .ok xs
  | .str s => .ok (s.data.map fun c => .str (String.mk [c]))
  | .obj fs => .ok (fs.map fun kv => .str kv.1)
  | _ => .error .typeError

/-! ### `datetime` model -/

/-- A Python `datetime`: `offset` is the UTC offset in minutes
(`some 0` for an aware UTC datetime, `none` for a naive one). -/
structure PyDateTime where
  year : Nat
  month : Nat
  day : Nat
  hour : Nat
  minute : Nat
  second : Nat
  microsecond : Nat
  offset : Option Int
deriving DecidableEq, Repr

def digitVal (c : Char) : Nat := c.toNat - 48

/-- Two decimal digits. -/
def parse2 : List Char → Option (Nat × List Char)
  | a :: b :: r =>
    if a.isDigit && b.isDigit then some (10 * digitVal a + digitVal b, r) else none
  | _ => none

def leapYear (y : Nat) : Bool := (y % 4 == 0 && y % 100 != 0) || y % 400 == 0

def daysInMonth (y mo : Nat) : Nat :=
  match mo with
  | 2 => if leapYear y then 29 else 28
  | 4 | 6 | 9 | 11 => 30
  | _ => 31

/-- `YYYY-MM-DD`, exactly ten characters consumed, with the range checks
`fromisoformat` performs. -/
def parseDate : List Char → Option ((Nat × Nat × Nat) × List Char)
  | y1 :: y2 :: y3 :: y4 :: s1 :: m1 :: m2 :: s2 :: d1 :: d2 :: rest =>
    if y1.isDigit && y2.isDigit && y3.isDigit && y4.isDigit && s1 = '-' &&
       m1.isDigit && m2.isDigit && s2 = '-' && d1.isDigit && d2.isDigit then
      let y := 1000 * digitVal y1 + 100 * digitVal y2 + 10 * digitVal y3 + digitVal y4
      let mo := 10 * digitVal m1 + digitVal m2
      let da := 10 * digitVal d1 + digitVal d2
      if 1 ≤ mo && mo ≤ 12 && 1 ≤ da && da ≤ daysInMonth y mo then
        some ((y, mo, da), rest)
      else none
    else none
  | _ => none

/-- A character that starts the UTC-offset part of an ISO time string. -/
def offChar (c : Char) : Bool := c = '+' || c = '-' || c = 'Z'

/-- Split the time part at the first offset character, as CPython's
`fromisoformat` does. -/
def splitOff : List Char → List Char × List Char
  | [] => ([], [])
  | c :: r =>
    if offChar c then ([], c :: r)
    else
      let p := splitOff r
      (c :: p.1, p.2)

/-- Fractional seconds: one to six digits, scaled to microseconds. -/
def parseFracAux : List Char → Nat → Nat → Option Nat
  | [], acc, k => if 1 ≤ k && k ≤ 6 then some (acc * 10 ^ (6 - k)) else none
  | c :: r, acc, k =>
    if c.isDigit then parseFracAux r (acc * 10 + digitVal c) (k + 1) else none

/-- `HH[:MM[:SS[.ffffff]]]`, consuming the whole input. -/
def parseTimeCore (cs : List Char) : Option (Nat × Nat × Nat × Nat) := do
  let (h, r1) ← parse2 cs
  if h ≤ 23 then
    match r1 with
    | [] => some (h, 0, 0, 0)
    | ':' :: r2 => do
      let (mi, r3) ← parse2 r2
      if mi ≤ 59 then
        match r3 with
        | [] => some (h, mi, 0, 0)
        | ':' :: r4 => do
          let (sec, r5) ← parse2 r4
          if sec ≤ 59 then
            match r5 with
            | [] => some (h, mi, sec, 0)
            | '.' :: r6 => do
              let mic ← parseFracAux r6 0 0
              some (h, mi, sec, mic)
            | _ => none
          else none
        | _ => none
      else none
    | _ => none
  else none

/-- `HH:MM` of a UTC offset, in minutes. -/
def parseHM : List Char → Option Nat
  | [h1, h2, c, m1, m2] =>
    if h1.isDigit && h2.isDigit && c = ':' && m1.isDigit && m2.isDigit then
      let h := 10 * digitVal h1 + digitVal h2
      let m := 10 * digitVal m1 + digitVal m2
      if h ≤ 23 && m ≤ 59 then some (h * 60 + m) else none
    else none
  | _ => none

/-- The offset part: empty (naive), a literal `Z` (UTC), or `±HH:MM`. -/
def parseOffsetPart : List Char → Option (Option Int)
  | [] => some none
  | ['Z'] => some (some 0)
  | '+' :: r => (parseHM r).map fun m => some (m : Int)
  | '-' :: r => (parseHM r).map fun m => some (-(m : Int))
  | _ => none

def fromisoformatCL (cs : List Char) : Option PyDateTime := do
  let (d, rest) ← parseDate cs
  match rest with
  | [] => some ⟨d.1, d.2.1, d.2.2, 0, 0, 0, 0, none⟩
  | sep :: tr =>
    if sep = 'T' || sep = ' ' then
      let p := splitOff tr
      let (h, mi, sec, mic) ← parseTimeCore p.1
      let off ← parseOffsetPart p.2
      some ⟨d.1, d.2.1, d.2.2, h, mi, sec, mic, off⟩
    else none

/-- Model of `datetime.fromisoformat` (Python 3.11): `none` means the
call raises `ValueError`. -/
def fromisoformat (s : String) : Option PyDateTime := fromisoformatCL s.data

/-- Lines 117–123 of `main.py`: `timestamp = datetime.now()`, then, when
the raw publish-time field is truthy, try `datetime.fromisoformat` on
it, catching `ValueError` (parse failure) and `TypeError` (non-string)
and keeping `now`. -/
def normTimestamp (pub : Json) (now : PyDateTime) : PyDateTime :=
  if pub.truthy then
    match pub with
    | .str s => (fromisoformat s).getD now
    | _ => now
  else now

/-! ### Pydantic models and field validation

Validation follows pydantic v2 lax mode on the field types that occur in
`main.py`; all field errors are collapsed to `PyError.validationError`,
since the code never inspects the exception. -/

/-- The `NewsArticle` pydantic model.  JSON floats are modelled as `ℚ`. -/
structure NewsArticle where
  id : Option Nat
  title : String
  summary : Option String
  source : String
  country : Option String
  category : Option String
  timestamp : PyDateTime
  imageUrl : Option String
  relevance_score : Option ℚ
deriving DecidableEq, Repr

/-- The `Trend` pydantic model. -/
structure Trend where
  uri : String
  label : String
  score : ℚ
deriving DecidableEq, Repr

/-- Validation of a `str` field: only a string is accepted. -/
def vStr : Json → Except PyError String
  | .str s => .ok s
  | _ => .error .validationError

/-- Validation of an `Optional[str]` field. -/
def vOptStr : Json → Except PyError (Option String)
  | .null => .ok none
  | .str s => .ok (some s)
  | _ => .error .validationError

/-- Validation of an `Optional[float]` field. -/
def vOptFloat : Json → Except PyError (Option ℚ)
  | .null => .ok none
  | .num q => .ok (some q)
  | _ => .error .validationError

/-- Validation of a `float` field. -/
def vFloat : Json → Except PyError ℚ
  | .num q => .ok q
  | _ => .error .validationError

/-! ### The fixed lookup tables (lines 50–69) -/

def COUNTRY_URIS : List (String × String) :=
  [("USA", "http://en.wikipedia.org/wiki/United_States"),
   ("UK", "http://en.wikipedia.org/wiki/United_Kingdom"),
   ("Japan", "http://en.wikipedia.org/wiki/Japan"),
   ("Germany", "http://en.wikipedia.org/wiki/Germany")]

def CATEGORY_URIS : List (String × String) :=
  [("Business", "dmoz/Business"),
   ("Tech", "dmoz/Computers/Technology"),
   ("Politics", "dmoz/Society/Politics"),
   ("Science", "dmoz/Science"),
   ("Health", "dmoz/Health")]

def SORT_BY_MAP : List (String × String) :=
  [("newest", "date"),
   ("relevance", "rel"),
   ("source", "sourceImportance")]

/-- Python `dict` lookup on a string-valued table (insertion order). -/
def lookupStr : List (String × String) → String → Option String
  | [], _ => none
  | (k, v) :: rest, key => if k = key then some v else lookupStr rest key

/-- Line 132: `next((k for k, v in COUNTRY_URIS.items() if v == uri), None)`.
The comparison `v == x` holds only when `x` is the equal string. -/
def reverseCountry (locUri : Json) : Option String :=
  (COUNTRY_URIS.find? fun kv =>
    match locUri with
    | .str s => kv.2 == s
    | _ => false).map Prod.fst

/-- Line 133: `next((k for k, v in CATEGORY_URIS.items() if v in cats), "General")`:
membership tests run left to right over the table; the first raising
test propagates its exception, and exhaustion yields `"General"`. -/
def catResolveAux : List (String × String) → Json → Except PyError String
  | [], _ => .ok "General"
  | (k, v) :: rest, cats => do
    let b ← pyIn v cats
    if b then .ok k else catResolveAux rest cats

def catResolve (cats : Json) : Except PyError String :=
  catResolveAux CATEGORY_URIS cats

/-- Line 132's value chain
`item.get("location", {}).get("country", {}).get("uri")`. -/
def locCountryUri (fs : List (String × Json)) : Except PyError Json := do
  let ctry ← pyGetD ((lookupField fs "location").getD (.obj [])) "country" (.obj [])
  pyGet ctry "uri"

/-- Lines 117–135: turn raw item number `i` (0-based) into a
`NewsArticle`.  The `Except` sequencing follows the Python evaluation
order — the timestamp block first, then the keyword arguments of
`NewsArticle(...)` left to right (only the `source`, `country` and
`category` expressions can raise), then pydantic validation of the
collected values.  A non-dict item raises `AttributeError` at
`item.get("dateTimePub")` (line 117). -/
def buildArticle (i : Nat) (item : Json) (now : PyDateTime) :
    Except PyError NewsArticle :=
  match item with
  | .obj fs => do
    let timestamp := normTimestamp ((lookupField fs "dateTimePub").getD .null) now
    let sourceJ ← pyGetD ((lookupField fs "source").getD (.obj [])) "title"
      (.str "Unknown Source")
    let locUri ← locCountryUri fs
    let category ← catResolve ((lookupField fs "categories").getD (.arr []))
    let title ← vStr ((lookupField fs "title").getD (.str "No Title"))
    let summary ← vOptStr ((lookupField fs "body").getD .null)
    let source ← vStr sourceJ
    let imageUrl ← vOptStr ((lookupField fs "image").getD .null)
    let relevance ← vOptFloat ((lookupField fs "relevance").getD (.num 0))
    .ok ⟨some (i + 1), title, summary, source, reverseCountry locUri,
      some category, timestamp, imageUrl, relevance⟩
  | _ => .error .attributeError

/-- List traversal in `Except`: build one output per input, aborting at
the first exception — the semantics of the Python `for` loop with
`articles.append(...)` and of a list comprehension. -/
def mapMExcept (f : α → Except PyError β) : List α → Except PyError (List β)
  | [] => .ok []
  | x :: xs => do
    let b ← f x
    let bs ← mapMExcept f xs
    .ok (b :: bs)

/-! ### Upstream request and the endpoints -/

/-- The provider request body built at lines 85–108 (fields the model
tracks; the constant strings `action`, `resultType`, `dataType` carry no
information). -/
structure Payload where
  articlesPage : Nat
  articlesCount : Nat
  articlesSortBy : String
  articlesSortByAsc : Bool
  articlesArticleBodyLen : Int
  keyword : String
  sourceLocationUri : Option String
  categoryUri : Option String
  apiKey : String
  forceMaxDataTimeWindow : Nat
deriving DecidableEq, Repr

/-- Lines 85–108: the payload, with the conditional parameters.  `q`,
`country`, `category` gate on Python truthiness (`None` and `""` are
falsy) and the two URI filters additionally on table membership. -/
def buildPayload (q country category : Option String) (sort_by : String)
    (apiKey : String) : Payload :=
  { articlesPage := 1,
    articlesCount := 20,
    articlesSortBy := (lookupStr SORT_BY_MAP sort_by).getD "date",
    articlesSortByAsc := false,
    articlesArticleBodyLen := -1,
    keyword := match q with
      | some s => if s = "" then "business" else s
      | none => "business",
    sourceLocationUri := match country with
      | some c => if c = "" then none else lookupStr COUNTRY_URIS c
      | none => none,
    categoryUri := match category with
      | some c => if c = "" then none else lookupStr CATEGORY_URIS c
      | none => none,
    apiKey := apiKey,
    forceMaxDataTimeWindow := 31 }

/-- Outcome of the single `requests.post` call: a network-level failure
(`requests.exceptions.RequestException`) or an HTTP response with a
status code and a JSON body. -/
inductive FetchResult where
  | networkError : FetchResult
  | response (status : Nat) (body : Json) : FetchResult

/-- The two environment variables read at the top of each handler. -/
structure Env where
  apiKey : Option String
  baseUrl : Option String

/-- Python falsiness of `os.getenv`'s result (`None` or `""`). -/
def falsyStr : Option String → Bool
  | none => true
  | some s => s = ""

/-- Lines 72–142, `scrape_real_news`.  The upstream is modelled as a
function from the request payload to a fetch outcome.  Configuration
errors and `RequestException`s (network error, or `raise_for_status` on
a status ≥ 400) degrade to `.ok []`; every other exception escapes. -/
def scrape_real_news (q country category : Option String) (sort_by : String)
    (env : Env) (net : Payload → FetchResult) (now : PyDateTime) :
    Except PyError (List NewsArticle) :=
  if falsyStr env.apiKey || env.apiKey == some "YOUR_API_KEY_HERE" then .ok []
  else if falsyStr env.baseUrl then .ok []
  else
    match net (buildPayload q country category sort_by (env.apiKey.getD "")) with
    | .networkError => .ok []
    | .response status body =>
      if 400 ≤ status then .ok []
      else
        match (do
          let articlesJ ← pyGetD body "articles" (.obj [])
          let resultsJ ← pyGetD articlesJ "results" (.arr [])
          let items ← pyIter resultsJ
          mapMExcept (fun p => buildArticle p.1 p.2 now) items.enum :
            Except PyError (List NewsArticle)) with
        | .ok arts => .ok arts
        | .error e => .error e

/-- The `/news` endpoint (lines 145–152): the handler's return value is
serialized with HTTP 200; an uncaught exception becomes an HTTP 500
with no article body. -/
def get_news (q country category : Option String) (sort_by : String)
    (env : Env) (net : Payload → FetchResult) (now : PyDateTime) :
    Nat × Option (List NewsArticle) :=
  match scrape_real_news q country category sort_by env net now with
  | .ok arts => (200, some arts)
  | .error _ => (500, none)

/-- Line 177, one element of the trends comprehension:
`Trend(uri=t.get("uri"), label=t.get("label"), score=t.get("score"))`. -/
def buildTrend (t : Json) : Except PyError Trend := do
  let uriJ ← pyGet t "uri"
  let labelJ ← pyGet t "label"
  let scoreJ ← pyGet t "score"
  let uri ← vStr uriJ
  let lab ← vStr labelJ
  let score ← vFloat scoreJ
  .ok ⟨uri, lab, score⟩

/-- Lines 155–183, the body of the `/trends` handler up to the returned
trend list.  The trends request payload is constant, so the upstream is
a plain `FetchResult`. -/
def get_trends_core (env : Env) (net : FetchResult) :
    Except PyError (List Trend) :=
  if falsyStr env.apiKey || env.apiKey == some "YOUR_API_KEY_HERE" then .ok []
  else if falsyStr env.baseUrl then .ok []
  else
    match net with
    | .networkError => .ok []
    | .response status body =>
      if 400 ≤ status then .ok []
      else
        match (do
          let t1 ← pyGetD body "trends" (.obj [])
          let t2 ← pyGetD t1 "trends" (.obj [])
          let resultsJ ← pyGetD t2 "results" (.arr [])
          let items ← pyIter resultsJ
          mapMExcept buildTrend items : Except PyError (List Trend)) with
        | .ok ts => .ok ts
        | .error e => .error e

/-- The `/trends` endpoint: the handler's `{"trends": [...]}` value with
HTTP 200, or HTTP 500 on an uncaught exception. -/
def get_trends (env : Env) (net : FetchResult) : Nat × Option (List Trend) :=
  match get_trends_core env net with
  | .ok ts => (200, some ts)
  | .error _ => (500, none)

/-! ### Spec-side definitions and well-typedness

`specTermMatch` is written from the specification's words, not from the
code, in order to compare the spec's local filtering rule with what the
code returns. -/

/-- `pat` occurs as a substring of `s`. -/
def containsSub (s pat : String) : Bool := subCL pat.data s.data

/-- ASCII lower-casing of one character. -/
def lowerChar (c : Char) : Char :=
  if 'A' ≤ c ∧ c ≤ 'Z' then Char.ofNat (c.toNat + 32) else c

/-- ASCII lower-casing of a string. -/
def lowerStr (s : String) : String := ⟨s.data.map lowerChar⟩

/-- Modelled from the spec: "keep an article iff the term appears as a
substring of its title OR (if present) its summary", case-insensitively
(spec §4.3).  Used only to state what the spec demands of the `/news`
results. -/
def specTermMatch (term : String) (a : NewsArticle) : Bool :=
  containsSub (lowerStr a.title) (lowerStr term) ||
    (match a.summary with
     | some s => containsSub (lowerStr s) (lowerStr term)
     | none => false)

/-- The field named `k` is absent or a string. -/
def fieldOkStr (fs : List (String × Json)) (k : String) : Bool :=
  match lookupField fs k with
  | none => true
  | some (.str _) => true
  | some _ => false

/-- The field named `k` is absent, `null`, or a string. -/
def fieldOkOptStr (fs : List (String × Json)) (k : String) : Bool :=
  match lookupField fs k with
  | none => true
  | some .null => true
  | some (.str _) => true
  | some _ => false

/-- The field named `k` is absent, `null`, or a number. -/
def fieldOkOptNum (fs : List (String × Json)) (k : String) : Bool :=
  match lookupField fs k with
  | none => true
  | some .null => true
  | some (.num _) => true
  | some _ => false

/-- A raw provider item on which the construction at lines 125–135
raises no exception: the item is a dict; `title`, `body`, `image` are
strings (or null for the optional ones) when present; `source` is a
dict whose `title` is a string when present; `location` is a dict whose
`country` is a dict when present; `categories` is a container; and
`relevance` is a number or null when present.  `dateTimePub` is
unconstrained (its failures are caught). -/
def WellTypedItem : Json → Bool
  | .obj fs =>
    fieldOkStr fs "title" &&
    fieldOkOptStr fs "body" &&
    (match lookupField fs "source" with
     | none => true
     | some (.obj g) => fieldOkStr g "title"
     | some _ => false) &&
    fieldOkOptStr fs "image" &&
    (match lookupField fs "location" with
     | none => true
     | some (.obj g) =>
       (match lookupField g "country" with
        | none => true
        | some (.obj _) => true
        | some _ => false)
     | some _ => false) &&
    (match lookupField fs "categories" with
     | none => true
     | some (.arr _) => true
     | some (.str _) => true
     | some (.obj _) => true
     | some _ => false) &&
    fieldOkOptNum fs "relevance"
  | _ => false

/-! ### Concrete values used by witnesses and counterexamples -/

/-- A configured environment: a real key and a base URL. -/
def envOK : Env := ⟨some "k-123", some "http://eventregistry.org/api/v1"⟩

/-- A reference wall-clock instant for `datetime.now()`. -/
def nowRef : PyDateTime := ⟨2025, 6, 1, 12, 0, 0, 0, none⟩

/-- A well-formed raw item: the "Tech layoffs" article of the spec's
scenario, published 2024-02-01. -/
def itemTech : Json :=
  .obj [("title", .str "Tech layoffs"),
        ("source", .obj [("title", .str "AP")]),
        ("dateTimePub", .str "2024-02-01T00:00:00Z")]

/-- A well-formed raw item: the "Fed raises rates" article of the spec's
scenario, published 2024-01-01. -/
def itemFed : Json :=
  .obj [("title", .str "Fed raises rates"),
        ("body", .str "...inflation..."),
        ("source", .obj [("title", .str "Reuters")]),
        ("dateTimePub", .str "2024-01-01T00:00:00Z")]

/-- The articles the loop produces from `itemTech` / `itemFed` when the
provider returns them in the order `[itemTech, itemFed]`. -/
def artTech : NewsArticle :=
  ⟨some 1, "Tech layoffs", none, "AP", none, some "General",
    ⟨2024, 2, 1, 0, 0, 0, 0, some 0⟩, none, some 0⟩

def artFed : NewsArticle :=
  ⟨some 2, "Fed raises rates", some "...inflation...", "Reuters", none,
    some "General", ⟨2024, 1, 1, 0, 0, 0, 0, some 0⟩, none, some 0⟩

/-- A raw item whose `source` field is a string instead of the expected
dict — `item.get("source", {}).get("title", ...)` raises
`AttributeError` on it. -/
def itemBadSource : Json :=
  .obj [("title", .str "Ordinary title"), ("source", .str "Reuters")]

/-- A response body wrapping `results` the way newsapi.ai does. -/
def articlesBody (results : List Json) : Json :=
  .obj [("articles", .obj [("results", .arr results)])]

/-- A response body for `/trends` wrapping `results` the way the code
expects (`data["trends"]["trends"]["results"]`). -/
def trendsBody (results : List Json) : Json :=
  .obj [("trends", .obj [("trends", .obj [("results", .arr results)])])]

/-- A well-formed raw item whose title and summary do not contain the
term "tech" in any casing. -/
def itemFootball : Json :=
  .obj [("title", .str "Local football results"),
        ("source", .obj [("title", .str "AP")])]

/-- The article the loop produces from `itemFootball` at position 0
(publish time absent, so the timestamp is the wall-clock `nowRef`). -/
def artFootball : NewsArticle :=
  ⟨some 1, "Local football results", none, "AP", none, some "General",
    nowRef, none, some 0⟩

/-- A raw item that carries category data, but none of it maps to an
entry of `CATEGORY_URIS`. -/
def itemUnmapped : Json := .obj [("categories", .arr [.str "news/Sports"])]

/-- A raw item whose title is present but explicitly empty. -/
def itemEmptyTitle : Json := .obj [("title", .str "")]

/-- A well-formed raw trend entry and its normalized record. -/
def trendItemAI : Json :=
  .obj [("uri", .str "u1"), ("label", .str "AI"), ("score", .num (9 / 10))]

def trendAI : Trend := ⟨"u1", "AI", 9 / 10⟩

/-! ### Helper lemmas -/

theorem bind_ok_eval {α β : Type} {x : α} {f : α → Except PyError β} :
    (Except.ok x >>= f) = f x := rfl

theorem exceptBind_ok {α β : Type} {x : Except PyError α}
    {f : α → Except PyError β} {b : β} (h : x >>= f = .ok b) :
    ∃ a, x = .ok a ∧ f a = .ok b := by
  cases x with
  | ok a => exact ⟨a, rfl, h⟩
  | error e => exact Except.noConfusion h

/-- When the construction of article `i` from a dict item succeeds, the
resulting record carries the 1-based id, the validated raw title, the
validated nested source title, the category resolved by the table
scan (always present), and the normalized timestamp. -/
theorem buildArticle_obj_ok {i : Nat} {fs : List (String × Json)}
    {now : PyDateTime} {a : NewsArticle}
    (h : buildArticle i (.obj fs) now = .ok a) :
    a.id = some (i + 1) ∧
    vStr ((lookupField fs "title").getD (.str "No Title")) = .ok a.title ∧
    (∃ sJ, pyGetD ((lookupField fs "source").getD (.obj [])) "title"
        (.str "Unknown Source") = .ok sJ ∧ vStr sJ = .ok a.source) ∧
    (∃ c, catResolve ((lookupField fs "categories").getD (.arr [])) = .ok c ∧
      a.category = some c) ∧
    a.timestamp = normTimestamp ((lookupField fs "dateTimePub").getD .null) now := by
  simp only [buildArticle] at h
  obtain ⟨sJ, hsJ, h⟩ := exceptBind_ok h
  obtain ⟨locUri, hloc, h⟩ := exceptBind_ok h
  obtain ⟨cat, hcat, h⟩ := exceptBind_ok h
  obtain ⟨title, htitle, h⟩ := exceptBind_ok h
  obtain ⟨summary, hsum, h⟩ := exceptBind_ok h
  obtain ⟨source, hsrc, h⟩ := exceptBind_ok h
  obtain ⟨imageUrl, himg, h⟩ := exceptBind_ok h
  obtain ⟨rel, hrel, h⟩ := exceptBind_ok h
  cases h
  exact ⟨rfl, htitle, ⟨sJ, hsJ, hsrc⟩, ⟨cat, hcat, rfl⟩, rfl⟩

/-- A successful article construction always stamps id `i + 1`. -/
theorem buildArticle_ok_id {i : Nat} {item : Json} {now : PyDateTime}
    {a : NewsArticle} (h : buildArticle i item now = .ok a) :
    a.id = some (i + 1) := by
  cases item with
  | obj fs => exact (buildArticle_obj_ok h).1
  | null => exact Except.noConfusion h
  | bool b => exact Except.noConfusion h
  | num q => exact Except.noConfusion h
  | str s => exact Except.noConfusion h
  | arr xs => exact Except.noConfusion h

theorem mapMExcept_ok_length {α β : Type} {f : α → Except PyError β} :
    ∀ {l : List α} {ys : List β}, mapMExcept f l = .ok ys → ys.length = l.length := by
  intro l
  induction l with
  | nil => intro ys h; cases h; rfl
  | cons x xs ih =>
    intro ys h
    simp only [mapMExcept] at h
    obtain ⟨b, hb, h⟩ := exceptBind_ok h
    obtain ⟨bs, hbs, h⟩ := exceptBind_ok h
    cases h
    simp [ih hbs]

/-- The ids produced by a successful run of the article loop over items
numbered from `k` are `k + 1, k + 2, ...` in order. -/
theorem mapM_build_ids (now : PyDateTime) :
    ∀ (l : List Json) (k : Nat) {arts : List NewsArticle},
      mapMExcept (fun p => buildArticle p.1 p.2 now) (l.enumFrom k) = .ok arts →
      arts.map NewsArticle.id = (List.range' (k + 1) l.length).map some := by
  intro l
  induction l with
  | nil => intro k arts h; cases h; rfl
  | cons x xs ih =>
    intro k arts h
    simp only [List.enumFrom, mapMExcept] at h
    obtain ⟨a, ha, h⟩ := exceptBind_ok h
    obtain ⟨rest, hrest, h⟩ := exceptBind_ok h
    cases h
    have hid := buildArticle_ok_id ha
    simp [List.range', hid, ih (k + 1) hrest]

/-- When no URI of the table occurs in `xs`, the generator of line 133
exhausts and `next` returns its `"General"` default. -/
theorem catResolveAux_no_match {xs : List Json} :
    ∀ {L : List (String × String)},
      (∀ kv ∈ L, strMem kv.2 xs = false) →
      catResolveAux L (.arr xs) = .ok "General" := by
  intro L
  induction L with
  | nil => intro _; rfl
  | cons kv rest ih =>
    intro h
    have h1 : strMem kv.2 xs = false := h kv (by simp)
    have h2 := ih fun p hp => h p (List.mem_cons_of_mem kv hp)
    simp [catResolveAux, pyIn, h1, bind_ok_eval, h2]

/-- If every membership test on `cats` runs without raising, the
category scan of line 133 resolves to some label. -/
theorem catResolveAux_isOk {cats : Json}
    (hc : ∀ v, ∃ b, pyIn v cats = .ok b) :
    ∀ {L : List (String × String)}, ∃ r, catResolveAux L cats = .ok r := by
  intro L
  induction L with
  | nil => exact ⟨"General", rfl⟩
  | cons kv rest ih =>
    obtain ⟨b, hb⟩ := hc kv.2
    obtain ⟨r, hr⟩ := ih
    cases b with
    | true => exact ⟨kv.1, by simp [catResolveAux, hb, bind_ok_eval]⟩
    | false => exact ⟨r, by simp [catResolveAux, hb, bind_ok_eval, hr]⟩

/-- On a well-typed raw item the construction of lines 125–135 raises
nothing: it yields an article. -/
theorem buildArticle_wellTyped_ok {item : Json}
    (hwt : WellTypedItem item = true) (i : Nat) (now : PyDateTime) :
    ∃ a, buildArticle i item now = .ok a := by
  cases item with
  | null => simp [WellTypedItem] at hwt
  | bool b => simp [WellTypedItem] at hwt
  | num q => simp [WellTypedItem] at hwt
  | str s => simp [WellTypedItem] at hwt
  | arr xs => simp [WellTypedItem] at hwt
  | obj fs =>
    simp only [WellTypedItem, Bool.and_eq_true] at hwt
    obtain ⟨⟨⟨⟨⟨⟨ht, hb⟩, hs⟩, himg⟩, hloc⟩, hcat⟩, hrel⟩ := hwt
    have h1 : ∃ t, vStr ((lookupField fs "title").getD (.str "No Title")) = .ok t := by
      rcases hT : lookupField fs "title" with _ | vT
      · exact ⟨"No Title", rfl⟩
      · simp only [fieldOkStr, hT] at ht
        cases vT <;> simp_all [vStr]
    have h2 : ∃ os, vOptStr ((lookupField fs "body").getD .null) = .ok os := by
      rcases hB : lookupField fs "body" with _ | vB
      · exact ⟨none, rfl⟩
      · simp only [fieldOkOptStr, hB] at hb
        cases vB <;> simp_all [vOptStr]
    have h3 : ∃ sJ, pyGetD ((lookupField fs "source").getD (.obj [])) "title"
        (.str "Unknown Source") = .ok sJ ∧ ∃ s, vStr sJ = .ok s := by
      rcases hS : lookupField fs "source" with _ | vS
      · exact ⟨.str "Unknown Source", rfl, "Unknown Source", rfl⟩
      · simp only [hS] at hs
        cases vS with
        | obj g =>
          rcases hT2 : lookupField g "title" with _ | vT2
          · exact ⟨.str "Unknown Source", by simp [pyGetD, hT2], "Unknown Source", rfl⟩
          · simp only [fieldOkStr, hT2] at hs
            cases vT2 <;> simp_all [vStr, pyGetD, hT2]
        | null => simp at hs
        | bool b => simp at hs
        | num q => simp at hs
        | str s => simp at hs
        | arr xs => simp at hs
    have h4 : ∃ u, locCountryUri fs = .ok u := by
      rcases hL : lookupField fs "location" with _ | vL
      · exact ⟨.null, by simp [locCountryUri, hL, pyGetD, pyGet, bind_ok_eval, lookupField]⟩
      · simp only [hL] at hloc
        cases vL with
        | obj g =>
          rcases hC : lookupField g "country" with _ | vC
          · exact ⟨.null, by simp [locCountryUri, hL, pyGetD, pyGet, hC, bind_ok_eval, lookupField]⟩
          · simp only [hC] at hloc
            cases vC <;>
              simp_all [locCountryUri, pyGetD, pyGet, bind_ok_eval, lookupField]
        | null => simp at hloc
        | bool b => simp at hloc
        | num q => simp at hloc
        | str s => simp at hloc
        | arr xs => simp at hloc
    have h5 : ∃ c, catResolve ((lookupField fs "categories").getD (.arr [])) = .ok c := by
      have hin : ∀ v, ∃ b, pyIn v ((lookupField fs "categories").getD (.arr [])) = .ok b := by
        rcases hK : lookupField fs "categories" with _ | vK
        · exact fun v => ⟨strMem v [], rfl⟩
        · simp only [hK] at hcat
          cases vK with
          | arr xs => exact fun v => ⟨strMem v xs, rfl⟩
          | str s => exact fun v => ⟨subCL v.data s.data, rfl⟩
          | obj g => exact fun v => ⟨g.any fun kv => kv.1 = v, rfl⟩
          | null => simp at hcat
          | bool b => simp at hcat
          | num q => simp at hcat
      exact catResolveAux_isOk hin
    have h6 : ∃ oi, vOptStr ((lookupField fs "image").getD .null) = .ok oi := by
      rcases hI : lookupField fs "image" with _ | vI
      · exact ⟨none, rfl⟩
      · simp only [fieldOkOptStr, hI] at himg
        cases vI <;> simp_all [vOptStr]
    have h7 : ∃ orl, vOptFloat ((lookupField fs "relevance").getD (.num 0)) = .ok orl := by
      rcases hR : lookupField fs "relevance" with _ | vR
      · exact ⟨some 0, rfl⟩
      · simp only [fieldOkOptNum, hR] at hrel
        cases vR <;> simp_all [vOptFloat]
    obtain ⟨t, h1⟩ := h1
    obtain ⟨os, h2⟩ := h2
    obtain ⟨sJ, h3a, s, h3b⟩ := h3
    obtain ⟨u, h4⟩ := h4
    obtain ⟨c, h5⟩ := h5
    obtain ⟨oi, h6⟩ := h6
    obtain ⟨orl, h7⟩ := h7
    refine ⟨⟨some (i + 1), t, os, s, reverseCountry u, some c,
      normTimestamp ((lookupField fs "dateTimePub").getD .null) now, oi, orl⟩, ?_⟩
    simp [buildArticle, h1, h2, h3a, h3b, h4, h5, h6, h7, bind_ok_eval]

/-- `splitOff` passes over characters that cannot start an offset. -/
theorem splitOff_append {a : List Char} (h : ∀ c ∈ a, offChar c = false) :
    ∀ b, splitOff (a ++ b) = (a ++ (splitOff b).1, (splitOff b).2) := by
  induction a with
  | nil => intro b; rfl
  | cons c r ih =>
    intro b
    have hc : offChar c = false := h c (by simp)
    have hr := ih (fun x hx => h x (List.mem_cons_of_mem c hx)) b
    simp [splitOff, hc, hr]

/-- `parseDate` consumes exactly the first ten characters; appending to
a ten-character list only changes the returned remainder. -/
theorem parseDate_append (cs : List Char) (h : cs.length = 10) (rest : List Char) :
    parseDate (cs ++ rest) = (parseDate cs).map fun p => (p.1, rest) := by
  rcases cs with _ | ⟨c0, _ | ⟨c1, _ | ⟨c2, _ | ⟨c3, _ | ⟨c4, _ | ⟨c5, _ | ⟨c6, _ |
    ⟨c7, _ | ⟨c8, _ | ⟨c9, tail⟩⟩⟩⟩⟩⟩⟩⟩⟩⟩ <;> simp at h
  subst h
  simp only [List.cons_append, List.nil_append, parseDate]
  split
  · split
    · rfl
    · rfl
  · rfl

/-- Appending a literal `Z` and appending `+00:00` to a timestamp string
parse identically, as long as the string's own time part contains no
offset marker (the date part may, `-` being consumed positionally). -/
theorem fromisoformatCL_Z_eq (cs : List Char)
    (h : ∀ c ∈ cs.drop 11, offChar c = false) :
    fromisoformatCL (cs ++ ['Z']) = fromisoformatCL (cs ++ ['+', '0', '0', ':', '0', '0']) := by
  rcases cs with _ | ⟨c0, _ | ⟨c1, _ | ⟨c2, _ | ⟨c3, _ | ⟨c4, _ | ⟨c5, _ | ⟨c6, _ |
    ⟨c7, _ | ⟨c8, _ | ⟨c9, tail⟩⟩⟩⟩⟩⟩⟩⟩⟩⟩ <;>
    try (simp [fromisoformatCL, parseDate]; done)
  have e1 : (c0::c1::c2::c3::c4::c5::c6::c7::c8::c9::tail) ++ ['Z'] =
      [c0,c1,c2,c3,c4,c5,c6,c7,c8,c9] ++ (tail ++ ['Z']) := by simp
  have e2 : (c0::c1::c2::c3::c4::c5::c6::c7::c8::c9::tail) ++ ['+','0','0',':','0','0'] =
      [c0,c1,c2,c3,c4,c5,c6,c7,c8,c9] ++ (tail ++ ['+','0','0',':','0','0']) := by simp
  simp only [fromisoformatCL, e1, e2,
    parseDate_append [c0,c1,c2,c3,c4,c5,c6,c7,c8,c9] rfl (tail ++ ['Z']),
    parseDate_append [c0,c1,c2,c3,c4,c5,c6,c7,c8,c9] rfl (tail ++ ['+','0','0',':','0','0'])]
  cases hpd : parseDate [c0,c1,c2,c3,c4,c5,c6,c7,c8,c9] with
  | none => rfl
  | some p =>
    simp only [hpd, Option.map_some']
    cases tail with
    | nil => rfl
    | cons sep tr =>
      have htr : ∀ c ∈ tr, offChar c = false := by
        intro c hc
        exact h c (by simpa using hc)
      by_cases hsep : sep = 'T' ∨ sep = ' '
      · have hb : (decide (sep = 'T') || decide (sep = ' ')) = true := by
          rcases hsep with h1 | h1 <;> simp [h1]
        simp only [List.cons_append, Bind.bind, Option.bind, hb, if_true]
        simp only [splitOff_append htr, List.append_nil]
        rfl
      · push_neg at hsep
        have hb : (decide (sep = 'T') || decide (sep = ' ')) = false := by
          simp [hsep.1, hsep.2]
        simp only [List.cons_append, Bind.bind, Option.bind, hb]
        rfl

/-- String-level form of `fromisoformatCL_Z_eq`. -/
theorem fromisoformat_Z_eq (s : String)
    (h : ∀ c ∈ s.data.drop 11, offChar c = false) :
    fromisoformat (s ++ "Z") = fromisoformat (s ++ "+00:00") := by
  obtain ⟨cs⟩ := s
  exact fromisoformatCL_Z_eq cs h

/-- A parseable publish-time string becomes the article timestamp. -/
theorem normTimestamp_parse_ok {s : String} {t : PyDateTime} (now : PyDateTime)
    (h : fromisoformat s = some t) : normTimestamp (.str s) now = t := by
  have hne : s ≠ "" := by
    intro he
    rw [he] at h
    exact Option.noConfusion h
  simp [normTimestamp, Json.truthy, hne, h]

/-- An unparseable publish-time string falls back to `now`. -/
theorem normTimestamp_parse_fail {s : String} (now : PyDateTime)
    (h : fromisoformat s = none) : normTimestamp (.str s) now = now := by
  by_cases he : s = ""
  · subst he; rfl
  · simp [normTimestamp, Json.truthy, he, h]

/-- A non-string publish-time value (absent, null, or any other type)
falls back to `now`: the `TypeError` from `fromisoformat` is caught. -/
theorem normTimestamp_non_str {pub : Json} (now : PyDateTime)
    (h : ∀ s, pub ≠ .str s) : normTimestamp pub now = now := by
  cases pub with
  | str s => exact absurd rfl (h s)
  | null => rfl
  | bool b => simp [normTimestamp]
  | num q => simp [normTimestamp]
  | arr xs => simp [normTimestamp]
  | obj fs => simp [normTimestamp]

/-- Any configuration error or `RequestException` makes
`scrape_real_news` return the empty list. -/
theorem scrape_error_empty {q country category : Option String} {sort_by : String}
    {env : Env} {net : Payload → FetchResult} {now : PyDateTime}
    (h : falsyStr env.apiKey = true ∨ env.apiKey = some "YOUR_API_KEY_HERE" ∨
      falsyStr env.baseUrl = true ∨
      net (buildPayload q country category sort_by (env.apiKey.getD "")) = .networkError ∨
      ∃ st b, net (buildPayload q country category sort_by (env.apiKey.getD "")) =
        .response st b ∧ 400 ≤ st) :
    scrape_real_news q country category sort_by env net now = .ok [] := by
  unfold scrape_real_news
  rcases h with h | h | h | h | ⟨st, b, hr, hst⟩
  · simp [h]
  · simp [h]
  · split
    · rfl
    · simp [h]
  · split
    · rfl
    · split
      · rfl
      · rw [h]
  · split
    · rfl
    · split
      · rfl
      · rw [hr]
        simp [hst]

/-- Any configuration error or `RequestException` makes the `/trends`
handler produce the empty trend list. -/
theorem trends_error_empty {env : Env} {net : FetchResult}
    (h : falsyStr env.apiKey = true ∨ env.apiKey = some "YOUR_API_KEY_HERE" ∨
      falsyStr env.baseUrl = true ∨ net = .networkError ∨
      ∃ st b, net = .response st b ∧ 400 ≤ st) :
    get_trends_core env net = .ok [] := by
  unfold get_trends_core
  rcases h with h | h | h | h | ⟨st, b, hr, hst⟩
  · simp [h]
  · simp [h]
  · split
    · rfl
    · simp [h]
  · split
    · rfl
    · split
      · rfl
      · rw [h]
  · split
    · rfl
    · split
      · rfl
      · rw [hr]
        simp [hst]

/-! ### Claim theorems -/

/-- C9: in the provider request, a `country` or `category` value not in
the fixed lookup tables is silently omitted (no filter parameter), an
unrecognized `sort_by` maps to the provider sort key `"date"`, and the
page size sent is the constant 20. -/
theorem C9_request_construction (q country category : Option String)
    (sort_by key : String) :
    (buildPayload q country category sort_by key).articlesCount = 20 ∧
    (∀ c, country = some c → lookupStr COUNTRY_URIS c = none →
      (buildPayload q country category sort_by key).sourceLocationUri = none) ∧
    (∀ c, category = some c → lookupStr CATEGORY_URIS c = none →
      (buildPayload q country category sort_by key).categoryUri = none) ∧
    (lookupStr SORT_BY_MAP sort_by = none →
      (buildPayload q country category sort_by key).articlesSortBy = "date") := by
  refine ⟨rfl, ?_, ?_, ?_⟩
  · intro c hc hn
    subst hc
    simp [buildPayload, hn]
  · intro c hc hn
    subst hc
    simp [buildPayload, hn]
  · intro hn
    simp [buildPayload, hn]

/-- Witness for C9 at a concrete unknown country, unknown category and
unrecognized sort key. -/
theorem C9_request_construction_witness :
    (buildPayload (some "x") (some "France") (some "Sports") "oldest" "k").articlesCount = 20 ∧
    (buildPayload (some "x") (some "France") (some "Sports") "oldest" "k").sourceLocationUri = none ∧
    (buildPayload (some "x") (some "France") (some "Sports") "oldest" "k").categoryUri = none ∧
    (buildPayload (some "x") (some "France") (some "Sports") "oldest" "k").articlesSortBy = "date" :=
  ⟨(C9_request_construction (some "x") (some "France") (some "Sports") "oldest" "k").1,
   (C9_request_construction (some "x") (some "France") (some "Sports") "oldest" "k").2.1
     "France" rfl rfl,
   (C9_request_construction (some "x") (some "France") (some "Sports") "oldest" "k").2.2.1
     "Sports" rfl rfl,
   (C9_request_construction (some "x") (some "France") (some "Sports") "oldest" "k").2.2.2 rfl⟩

/-- C10: when no free-text term is supplied (`q` is `None` or empty),
the keyword sent to the provider is the fixed default `"business"`. -/
theorem C10_default_keyword (q country category : Option String)
    (sort_by key : String) (h : q = none ∨ q = some "") :
    (buildPayload q country category sort_by key).keyword = "business" := by
  rcases h with h | h <;> subst h <;> rfl

/-- Witness for C10 at both shapes of an empty term. -/
theorem C10_default_keyword_witness :
    (buildPayload none none none "newest" "k").keyword = "business" ∧
    (buildPayload (some "") none none "newest" "k").keyword = "business" :=
  ⟨C10_default_keyword none none none "newest" "k" (Or.inl rfl),
   C10_default_keyword (some "") none none "newest" "k" (Or.inr rfl)⟩

/-- C3 fails on the code: `"oldest"` is not in `SORT_BY_MAP`, so the
request asks the provider for `"date"` order *descending* (identical to
`"newest"`), and the server does not reorder locally: with the two
scenario articles returned by the provider February-first, `/news?sort_by=oldest`
returns the February article before the January one. -/
theorem C3_counterexample :
    (buildPayload none none none "oldest" "k-123").articlesSortBy = "date" ∧
    (buildPayload none none none "oldest" "k-123").articlesSortByAsc = false ∧
    get_news none none none "oldest" envOK
      (fun _ => .response 200 (articlesBody [itemTech, itemFed])) nowRef =
      (200, some [artTech, artFed]) ∧
    artTech.timestamp.month = 2 ∧ artFed.timestamp.month = 1 :=
  ⟨rfl, rfl, rfl, rfl, rfl⟩

/-- C3 amended: `sort_by = "oldest"` produces exactly the same provider
request as `"newest"` (sort key `"date"`, descending); the server never
sorts the result list itself, so the order is whatever the provider
returns. -/
theorem C3_oldest_same_as_newest (q country category : Option String)
    (key : String) :
    buildPayload q country category "oldest" key =
      buildPayload q country category "newest" key := rfl

/-- C2 fails on the code: there is no local query engine.  With
`q = "tech"`, `/news` returns an article whose title and summary do not
contain the term at all. -/
theorem C2_counterexample :
    get_news (some "tech") none none "newest" envOK
      (fun _ => .response 200 (articlesBody [itemFootball])) nowRef =
      (200, some [artFootball]) ∧
    specTermMatch "tech" artFootball = false :=
  ⟨rfl, by decide⟩

/-- C2 amended: the handler applies no local filtering at all — the
query parameters only shape the provider request, and two calls that
receive the same upstream response return identical results whatever
their `q`, `country`, `category`, `sort_by`. -/
theorem C2_no_local_filtering (q1 c1 g1 : Option String) (s1 : String)
    (q2 c2 g2 : Option String) (s2 : String) (env : Env)
    (net1 net2 : Payload → FetchResult) (now : PyDateTime)
    (h : net1 (buildPayload q1 c1 g1 s1 (env.apiKey.getD "")) =
         net2 (buildPayload q2 c2 g2 s2 (env.apiKey.getD ""))) :
    get_news q1 c1 g1 s1 env net1 now = get_news q2 c2 g2 s2 env net2 now := by
  unfold get_news scrape_real_news
  rw [h]

/-- Witness for C2 amended: radically different query parameters, same
upstream response, same result. -/
theorem C2_no_local_filtering_witness :
    get_news (some "tech") none none "newest" envOK
      (fun _ => .response 200 (articlesBody [itemTech])) nowRef =
    get_news none (some "usa") (some "tech") "oldest" envOK
      (fun _ => .response 200 (articlesBody [itemTech])) nowRef :=
  C2_no_local_filtering (some "tech") none none "newest"
    none (some "usa") (some "tech") "oldest" envOK
    (fun _ => .response 200 (articlesBody [itemTech]))
    (fun _ => .response 200 (articlesBody [itemTech])) nowRef rfl

/-- C7: configuration errors (missing or placeholder key, missing base
URL) and upstream fetch errors (network failure, non-2xx status such as
HTTP 500) all degrade to an empty list, and the endpoints answer
HTTP 200 with an empty body, never a failure status. -/
theorem C7_errors_degrade (q country category : Option String) (sort_by : String)
    (env : Env) (net : Payload → FetchResult) (netT : FetchResult) (now : PyDateTime)
    (h : falsyStr env.apiKey = true ∨ env.apiKey = some "YOUR_API_KEY_HERE" ∨
      falsyStr env.baseUrl = true ∨
      net (buildPayload q country category sort_by (env.apiKey.getD "")) = .networkError ∨
      ∃ st b, net (buildPayload q country category sort_by (env.apiKey.getD "")) =
        .response st b ∧ 400 ≤ st)
    (hT : falsyStr env.apiKey = true ∨ env.apiKey = some "YOUR_API_KEY_HERE" ∨
      falsyStr env.baseUrl = true ∨ netT = .networkError ∨
      ∃ st b, netT = .response st b ∧ 400 ≤ st) :
    get_news q country category sort_by env net now = (200, some []) ∧
    get_trends env netT = (200, some []) := by
  constructor
  · unfold get_news
    rw [scrape_error_empty h]
  · unfold get_trends
    rw [trends_error_empty hT]

/-- Witness for C7: the HTTP 500 scenario on both endpoints. -/
theorem C7_errors_degrade_witness :
    get_news none none none "newest" envOK (fun _ => .response 500 .null) nowRef =
      (200, some []) ∧
    get_trends envOK (.response 500 .null) = (200, some []) :=
  C7_errors_degrade none none none "newest" envOK (fun _ => .response 500 .null)
    (.response 500 .null) nowRef
    (Or.inr (Or.inr (Or.inr (Or.inr ⟨500, .null, rfl, by decide⟩))))
    (Or.inr (Or.inr (Or.inr (Or.inr ⟨500, .null, rfl, by decide⟩))))

theorem mem_enumFrom_snd {α : Type} :
    ∀ {l : List α} {n : Nat} {p : Nat × α}, p ∈ l.enumFrom n → p.2 ∈ l := by
  intro l
  induction l with
  | nil => intro n p h; cases h
  | cons x xs ih =>
    intro n p h
    rcases List.mem_cons.mp h with h | h
    · subst h; exact List.mem_cons_self x xs
    · exact List.mem_cons_of_mem x (ih h)

theorem mapMExcept_all_ok {α β : Type} {f : α → Except PyError β} :
    ∀ {l : List α}, (∀ x ∈ l, ∃ b, f x = .ok b) →
      ∃ ys, mapMExcept f l = .ok ys := by
  intro l
  induction l with
  | nil => intro _; exact ⟨[], rfl⟩
  | cons x xs ih =>
    intro h
    obtain ⟨b, hb⟩ := h x (List.mem_cons_self x xs)
    obtain ⟨ys, hys⟩ := ih fun y hy => h y (List.mem_cons_of_mem x hy)
    exact ⟨b :: ys, by simp [mapMExcept, hb, hys, bind_ok_eval]⟩

/-- C1 fails on the code: one oddly-typed item aborts the whole batch.
With a well-formed first item followed by an item whose `source` field
is a string, the uncaught `AttributeError` makes the loop return no
article at all, and `/news` answers HTTP 500. -/
theorem C1_counterexample :
    mapMExcept (fun p => buildArticle p.1 p.2 nowRef) ([itemFed, itemBadSource].enum) =
      .error .attributeError ∧
    get_news none none none "newest" envOK
      (fun _ => .response 200 (articlesBody [itemFed, itemBadSource])) nowRef =
      (500, none) :=
  ⟨rfl, rfl⟩

/-- C1 amended: over raw items whose fields are well-typed, the loop is
total and length-preserving — exactly one `Article` per input item. -/
theorem C1_wellTyped_batch_total (items : List Json) (now : PyDateTime)
    (h : ∀ item ∈ items, WellTypedItem item = true) :
    ∃ arts, mapMExcept (fun p => buildArticle p.1 p.2 now) items.enum = .ok arts ∧
      arts.length = items.length := by
  have hall : ∀ p ∈ items.enum, ∃ b, buildArticle p.1 p.2 now = .ok b :=
    fun p hp => buildArticle_wellTyped_ok (h p.2 (mem_enumFrom_snd hp)) p.1 now
  obtain ⟨arts, harts⟩ := mapMExcept_all_ok hall
  exact ⟨arts, harts, by rw [mapMExcept_ok_length harts, List.enum_length]⟩

/-- Witness for C1 amended on a concrete two-item batch. -/
theorem C1_wellTyped_batch_total_witness :
    ∃ arts, mapMExcept (fun p => buildArticle p.1 p.2 nowRef)
      ([itemTech, itemFed].enum) = .ok arts ∧
      arts.length = [itemTech, itemFed].length :=
  C1_wellTyped_batch_total [itemTech, itemFed] nowRef (by decide)

/-- C4: the publish-time field is parsed with `fromisoformat` — a
literal `Z` suffix parses exactly like `+00:00` — and on parse failure
or a non-string (absent) value the article timestamp is the current
wall-clock time; the failure never escapes (the resulting timestamp is
what `buildArticle` stores). -/
theorem C4_timestamp_normalization (now : PyDateTime) :
    (∀ s t, fromisoformat s = some t → normTimestamp (.str s) now = t) ∧
    (∀ s, fromisoformat s = none → normTimestamp (.str s) now = now) ∧
    (∀ pub, (∀ s, pub ≠ .str s) → normTimestamp pub now = now) ∧
    (∀ s : String, (∀ c ∈ s.data.drop 11, offChar c = false) →
      fromisoformat (s ++ "Z") = fromisoformat (s ++ "+00:00")) ∧
    (∀ i fs a, buildArticle i (.obj fs) now = .ok a →
      a.timestamp = normTimestamp ((lookupField fs "dateTimePub").getD .null) now) :=
  ⟨fun _ _ h => normTimestamp_parse_ok now h,
   fun _ h => normTimestamp_parse_fail now h,
   fun _ h => normTimestamp_non_str now h,
   fromisoformat_Z_eq,
   fun _ _ _ h => (buildArticle_obj_ok h).2.2.2.2⟩

/-- Witness for C4: a `Z`-suffixed timestamp parses to the aware UTC
instant, garbage and absence fall back to `now`, the `Z` and `+00:00`
suffixes agree on a concrete stamp, and `itemTech`'s article stores the
normalized value. -/
theorem C4_timestamp_normalization_witness :
    normTimestamp (.str "2024-02-01T00:00:00Z") nowRef =
      ⟨2024, 2, 1, 0, 0, 0, 0, some 0⟩ ∧
    normTimestamp (.str "not-a-date") nowRef = nowRef ∧
    normTimestamp .null nowRef = nowRef ∧
    fromisoformat ("2024-02-01T00:00:00" ++ "Z") =
      fromisoformat ("2024-02-01T00:00:00" ++ "+00:00") ∧
    artTech.timestamp = normTimestamp
      ((lookupField [("title", .str "Tech layoffs"),
        ("source", .obj [("title", .str "AP")]),
        ("dateTimePub", .str "2024-02-01T00:00:00Z")] "dateTimePub").getD .null)
      nowRef :=
  ⟨(C4_timestamp_normalization nowRef).1 "2024-02-01T00:00:00Z" _ rfl,
   (C4_timestamp_normalization nowRef).2.1 "not-a-date" rfl,
   (C4_timestamp_normalization nowRef).2.2.1 .null (fun s h => Json.noConfusion h),
   (C4_timestamp_normalization nowRef).2.2.2.1 "2024-02-01T00:00:00" (by decide),
   (C4_timestamp_normalization nowRef).2.2.2.2 0
     [("title", .str "Tech layoffs"), ("source", .obj [("title", .str "AP")]),
      ("dateTimePub", .str "2024-02-01T00:00:00Z")] artTech rfl⟩

/-- C5 fails on the code: an item whose category data is present but
maps to no table entry still gets the default label `"General"` — the
category is not absent. -/
theorem C5_counterexample :
    Except.map NewsArticle.category (buildArticle 0 itemUnmapped nowRef) =
      .ok (some "General") := rfl

/-- C5 amended: the category is never absent after normalization — the
`next(..., "General")` default applies to every no-match case, whether
category data is missing entirely or present but unmapped. -/
theorem C5_category_never_absent :
    (∀ i fs now a, buildArticle i (.obj fs) now = .ok a → a.category ≠ none) ∧
    (∀ i fs now a xs, buildArticle i (.obj fs) now = .ok a →
      lookupField fs "categories" = some (.arr xs) →
      (∀ kv ∈ CATEGORY_URIS, strMem kv.2 xs = false) →
      a.category = some "General") ∧
    (∀ i fs now a, buildArticle i (.obj fs) now = .ok a →
      lookupField fs "categories" = none →
      a.category = some "General") := by
  refine ⟨?_, ?_, ?_⟩
  · intro i fs now a h
    obtain ⟨c, _, hcat⟩ := (buildArticle_obj_ok h).2.2.2.1
    rw [hcat]
    exact Option.some_ne_none c
  · intro i fs now a xs h hxs hnm
    obtain ⟨c, hc, hcat⟩ := (buildArticle_obj_ok h).2.2.2.1
    rw [hxs] at hc
    simp only [Option.getD_some] at hc
    unfold catResolve at hc
    rw [catResolveAux_no_match hnm] at hc
    rw [hcat]
    exact congrArg some (Except.ok.inj hc).symm
  · intro i fs now a h hn
    obtain ⟨c, hc, hcat⟩ := (buildArticle_obj_ok h).2.2.2.1
    rw [hn] at hc
    simp only [Option.getD_none] at hc
    unfold catResolve at hc
    rw [@catResolveAux_no_match [] CATEGORY_URIS fun kv _ => rfl] at hc
    rw [hcat]
    exact congrArg some (Except.ok.inj hc).symm

/-- Witness for C5 amended: the unmapped-category item yields
`"General"`, and the category-free `itemFootball` yields `"General"`. -/
theorem C5_category_never_absent_witness :
    (⟨some 1, "No Title", none, "Unknown Source", none, some "General",
      nowRef, none, some 0⟩ : NewsArticle).category ≠ none ∧
    (⟨some 1, "No Title", none, "Unknown Source", none, some "General",
      nowRef, none, some 0⟩ : NewsArticle).category = some "General" ∧
    artFootball.category = some "General" :=
  ⟨C5_category_never_absent.1 0 [("categories", .arr [.str "news/Sports"])]
     nowRef _ rfl,
   C5_category_never_absent.2.1 0 [("categories", .arr [.str "news/Sports"])]
     nowRef _ [.str "news/Sports"] rfl rfl (by decide),
   C5_category_never_absent.2.2 0 [("title", .str "Local football results"),
     ("source", .obj [("title", .str "AP")])] nowRef artFootball rfl rfl⟩

/-- C6 fails on the code as stated: a raw item whose title is present
but explicitly empty yields an `Article` with an empty title — the
placeholder only covers the absent case. -/
theorem C6_counterexample :
    Except.map NewsArticle.title (buildArticle 0 itemEmptyTitle nowRef) =
      .ok "" := rfl

/-- C6 amended: every `Article` carries title and source strings, equal
to the placeholders `"No Title"` / `"Unknown Source"` exactly when the
raw fields are absent (an explicitly empty string is kept); within one
batch the ids are the unique, ordered, 1-based input positions. -/
theorem C6_placeholders_and_ids :
    (∀ i fs now a, buildArticle i (.obj fs) now = .ok a →
      (lookupField fs "title" = none → a.title = "No Title") ∧
      (lookupField fs "source" = none → a.source = "Unknown Source")) ∧
    (∀ (items : List Json) (now : PyDateTime) (arts : List NewsArticle),
      mapMExcept (fun p => buildArticle p.1 p.2 now) items.enum = .ok arts →
      arts.map NewsArticle.id = (List.range' 1 items.length).map some) := by
  constructor
  · intro i fs now a h
    obtain ⟨_, htitle, ⟨sJ, hsJ, hsrc⟩, _, _⟩ := buildArticle_obj_ok h
    constructor
    · intro hn
      rw [hn] at htitle
      exact (Except.ok.inj htitle).symm
    · intro hn
      rw [hn] at hsJ
      have hsJ2 : sJ = .str "Unknown Source" := (Except.ok.inj hsJ).symm
      rw [hsJ2] at hsrc
      exact (Except.ok.inj hsrc).symm
  · intro items now arts h
    exact mapM_build_ids now items 0 h

/-- Witness for C6 amended: the field-free `itemUnmapped` receives both
placeholders, and the two-item batch gets ids `[1, 2]`. -/
theorem C6_placeholders_and_ids_witness :
    ((⟨some 1, "No Title", none, "Unknown Source", none, some "General",
      nowRef, none, some 0⟩ : NewsArticle).title = "No Title" ∧
     (⟨some 1, "No Title", none, "Unknown Source", none, some "General",
      nowRef, none, some 0⟩ : NewsArticle).source = "Unknown Source") ∧
    [artTech, artFed].map NewsArticle.id = (List.range' 1 2).map some :=
  ⟨⟨(C6_placeholders_and_ids.1 0 [("categories", .arr [.str "news/Sports"])]
       nowRef _ rfl).1 rfl,
    (C6_placeholders_and_ids.1 0 [("categories", .arr [.str "news/Sports"])]
       nowRef _ rfl).2 rfl⟩,
   C6_placeholders_and_ids.2 [itemTech, itemFed] nowRef [artTech, artFed] rfl⟩

/-- C8 fails on the code: a trend entry missing a field is not skipped —
`Trend(uri=None, ...)` raises a `ValidationError` that escapes the
handler, so `/trends` fails with HTTP 500 instead of dropping the
entry. -/
theorem C8_counterexample :
    get_trends envOK (.response 200 (trendsBody [.obj [("label", .str "AI")]])) =
      (500, none) := rfl

/-- C8 amended: well-formed entries map `uri`, `label`, `score` directly
and absent top-level trend data yields an empty list (not an error); a
field-missing entry, however, raises a validation error instead of
being skipped.  The spec's scenario payload maps to the expected single
trend. -/
theorem C8_trend_normalization :
    (∀ l : List (String × String × ℚ),
      mapMExcept buildTrend (l.map fun e =>
        .obj [("uri", .str e.1), ("label", .str e.2.1), ("score", .num e.2.2)]) =
      .ok (l.map fun e => ⟨e.1, e.2.1, e.2.2⟩)) ∧
    (∀ env st bfs, falsyStr env.apiKey = false →
      env.apiKey ≠ some "YOUR_API_KEY_HERE" → falsyStr env.baseUrl = false →
      st < 400 → lookupField bfs "trends" = none →
      get_trends env (.response st (.obj bfs)) = (200, some [])) ∧
    get_trends envOK (.response 200 (trendsBody [trendItemAI])) =
      (200, some [trendAI]) := by
  refine ⟨?_, ?_, rfl⟩
  · intro l
    induction l with
    | nil => rfl
    | cons e rest ih =>
      simp [mapMExcept, buildTrend, pyGet, lookupField, vStr, vFloat,
        bind_ok_eval, ih]
  · intro env st bfs hk hkp hb hst hn
    unfold get_trends get_trends_core
    have hk2 : (env.apiKey == some "YOUR_API_KEY_HERE") = false :=
      beq_eq_false_iff_ne.mpr hkp
    simp only [hk, hk2, Bool.or_self, Bool.false_or, if_false]
    simp only [hb, if_false]
    have hst2 : ¬(400 ≤ st) := by omega
    simp [hst2, pyGetD, hn, pyIter, lookupField, mapMExcept, bind_ok_eval]

/-- Witness for C8 amended on the scenario entry and a payload with no
trend data. -/
theorem C8_trend_normalization_witness :
    mapMExcept buildTrend ([("u1", "AI", (9 : ℚ) / 10)].map fun e =>
      .obj [("uri", .str e.1), ("label", .str e.2.1), ("score", .num e.2.2)]) =
      .ok ([("u1", "AI", (9 : ℚ) / 10)].map fun e => ⟨e.1, e.2.1, e.2.2⟩) ∧
    get_trends envOK (.response 200 (.obj [("other", .null)])) = (200, some []) :=
  ⟨C8_trend_normalization.1 [("u1", "AI", (9 : ℚ) / 10)],
   C8_trend_normalization.2.1 envOK 200 [("other", .null)] rfl (by decide) rfl
     (by decide) rfl⟩
